import Mathlib

/-!
Formal model of `place_river_label`
(src/river-label-placement/src/label_placement.py).

The core pipeline — body selection, anchor selection, orientation
estimation, layout classification, and the bounded bounding-box
refinement loop — is translated directly from the Python source.
External collaborators are modelled as data:

* the geometry library's `Polygon` object appears as an abstract record
  carrying exactly the attributes the source reads (`area`, `centroid`,
  `representative_point`, a point-containment predicate, and the
  exterior ring that gets plotted);
* the render-and-measure service (drawing the text and testing whether
  the measured text bounding box lies inside the dominant polygon,
  source lines 75–97) is a Boolean oracle `boxContained : Pt → Bool`
  indexed by the anchor at which the text is drawn;
* the boundary sampling that produces the two tangent sample points
  (source lines 38–42, `nearest_points` / `project` / `interpolate`)
  delivers two points `p1 p2 : Pt`, which the model takes as inputs.

Real numbers stand in for Python floats. Floating-point rounding is not
modelled; all arithmetic is exact.
-/

namespace RiverLabel

/-- A 2D point, as used for anchors, boundary samples and candidates. -/
@[ext]
structure Pt where
  x : ℝ
  y : ℝ

/-- Configuration constants, source lines 15–21. -/
def LABEL_TEXT : String := "ELBE"

/-- Source line 16 (declared in the source; not used by the algorithm). -/
noncomputable def PADDING_DISTANCE : ℝ := 6.0

/-- Source line 17. -/
noncomputable def ANGLE_SAMPLE_EPS : ℝ := 5.0

/-- Source line 18: the fixed per-step offset distance of the refiner. -/
noncomputable def STACKED_TEXT_OFFSET : ℝ := 2.0

/-- Source line 19: the refinement loop's step budget. -/
def MAX_OFFSET_STEPS : ℕ := 6

/-- Source line 20. -/
noncomputable def HORIZONTAL_THRESHOLD : ℝ := 25

/-- Source line 21. -/
noncomputable def VERTICAL_THRESHOLD : ℝ := 40

/-- Errors the pipeline can surface. The only failure the source code
itself produces is Python's `ValueError` from `max()` on an empty
sequence (source line 31), which is the spec's `EmptyGeometry`. -/
inductive GeomErr where
  | EmptyGeometry
deriving DecidableEq

/-- Abstract model of a geometry-library polygon, carrying exactly the
attributes `place_river_label` reads from `main_poly` / the parsed
polygons: `exterior` (plotted, line 63), `area` (line 31), `centroid`
(line 34), `representative_point` (line 35) and the point-containment
predicate `contains` (lines 35, 113). -/
structure Polygon where
  exterior : List Pt
  area : ℝ
  centroid : Pt
  representative_point : Pt
  containsPt : Pt → Bool

/-- Python's `max(geoms, key=area)` over a nonempty list: keep the
current maximum, replace it only when a strictly larger key appears
(so the first polygon of maximal area wins). Source line 31. -/
noncomputable def maxByArea (p : Polygon) (ps : List Polygon) : Polygon :=
  ps.foldl (fun acc q => if acc.area < q.area then q else acc) p

/-- Body Selector, source line 31: `max(river.geoms, key=lambda p: p.area)`.
On an empty geometry list Python's `max` raises (`EmptyGeometry`). -/
noncomputable def selectBody : List Polygon → Except GeomErr Polygon
  | [] => .error .EmptyGeometry
  | p :: ps => .ok (maxByArea p ps)

/-- Anchor Selector, source lines 34–35:
`centroid if main_poly.contains(centroid) else main_poly.representative_point()`. -/
def anchorPoint (P : Polygon) : Pt :=
  if P.containsPt P.centroid then P.centroid else P.representative_point

/-- Two-argument arctangent with the semantics of `math.atan2(y, x)`
(range `(-π, π]` away from the origin), source line 44. -/
noncomputable def atan2 (y x : ℝ) : ℝ :=
  if 0 < x then Real.arctan (y / x)
  else if x < 0 then
    (if 0 ≤ y then Real.arctan (y / x) + Real.pi
     else Real.arctan (y / x) - Real.pi)
  else if 0 < y then Real.pi / 2
  else if y < 0 then -(Real.pi / 2)
  else 0

/-- `math.degrees`, source line 44. -/
noncomputable def degrees (r : ℝ) : ℝ := r * 180 / Real.pi

/-- Source line 44: the raw tangent angle
`math.degrees(math.atan2(p2.y - p1.y, p2.x - p1.x))`. -/
noncomputable def rawAngle (p1 p2 : Pt) : ℝ :=
  degrees (atan2 (p2.y - p1.y) (p2.x - p1.x))

/-- Source lines 45–46: `if raw_angle < -90 or raw_angle > 90: raw_angle += 180`. -/
noncomputable def normalizeAngle (a : ℝ) : ℝ :=
  if a < -90 ∨ 90 < a then a + 180 else a

/-- The three layout modes of the spec; the source realises them as the
three branches of lines 50–58. -/
inductive LayoutMode where
  | horizontal
  | stacked
  | rotated
deriving DecidableEq

/-- The (mode, rotation, text) triple the classification produces:
`final_angle` and `label_text` of source lines 50–58, with the branch
taken recorded as the layout mode. -/
structure Layout where
  mode : LayoutMode
  rotation : ℝ
  text : String

/-- Python's `"\n".join(text)` over the characters of `text`,
source line 55. -/
def stackText (s : String) : String :=
  String.intercalate "\n" (s.toList.map Char.toString)

/-- Layout classification, source lines 48–58, as a function of the
normalised angle `raw` (the source's `raw_angle` after lines 45–46,
with `abs_angle = abs(raw_angle)`). -/
noncomputable def layoutFor (raw : ℝ) : Layout :=
  if |raw| ≤ HORIZONTAL_THRESHOLD then ⟨.horizontal, 0, LABEL_TEXT⟩
  else if VERTICAL_THRESHOLD ≤ |raw| then ⟨.stacked, 0, stackText LABEL_TEXT⟩
  else ⟨.rotated, raw, LABEL_TEXT⟩

/-- `math.hypot(dx, dy)` for the tangent `p2 - p1`, source lines 100–102. -/
noncomputable def tangentLen (p1 p2 : Pt) : ℝ :=
  Real.sqrt ((p2.x - p1.x) ^ 2 + (p2.y - p1.y) ^ 2)

/-- First candidate of a refinement step, source lines 106–112: the
anchor translated by `STACKED_TEXT_OFFSET` along the first normal
`(-dy, dx)` of the unit tangent. -/
noncomputable def cand1 (p1 p2 p : Pt) : Pt :=
  ⟨p.x + -((p2.y - p1.y) / tangentLen p1 p2) * STACKED_TEXT_OFFSET,
   p.y + (p2.x - p1.x) / tangentLen p1 p2 * STACKED_TEXT_OFFSET⟩

/-- Second candidate of a refinement step, source lines 106–112: the
anchor translated by `STACKED_TEXT_OFFSET` along the opposite normal
`(dy, -dx)` of the unit tangent. -/
noncomputable def cand2 (p1 p2 p : Pt) : Pt :=
  ⟨p.x + (p2.y - p1.y) / tangentLen p1 p2 * STACKED_TEXT_OFFSET,
   p.y + -((p2.x - p1.x) / tangentLen p1 p2) * STACKED_TEXT_OFFSET⟩

/-- How the refinement loop of source lines 71–118 exited:
`verified` at the `break` of line 98 (bounding box contained),
`zeroTangent` at the `break` of line 104 (degenerate tangent),
`noViableMove` at the `break` of line 118 (neither candidate contained),
`budgetExhausted` when the `for` range runs out. -/
inductive RefineOutcome where
  | verified
  | zeroTangent
  | noViableMove
  | budgetExhausted
deriving DecidableEq

/-- State left behind by the refinement loop: the final `label_point`,
the position of the text artist still on the figure (`none` if no
iteration ran), the exit kind, and the number of draw-and-measure
round-trips performed (lines 75–91 run once per iteration entered). -/
structure RefineResult where
  anchor : Pt
  drawnAt : Option Pt
  outcome : RefineOutcome
  measurements : ℕ

/-- The refinement loop of source lines 71–118.
`boxC p` models `main_poly.contains(text_box)` for the text bounding box
measured when the label is drawn at `p` (lines 75–97, render + measure +
containment, an external round-trip); `ptC` is `main_poly.contains` on
points (line 113). Each iteration entered first draws at the current
anchor (recorded in `drawnAt`) and measures (counted in
`measurements`); on a move the loop recurses with the accepted
candidate, and when fuel runs out the anchor may have moved after the
last draw, so the artist position is the previously drawn point. -/
noncomputable def refineLoop (boxC ptC : Pt → Bool) (p1 p2 : Pt) :
    ℕ → Pt → Option Pt → ℕ → RefineResult
  | 0, p, drawn, m => ⟨p, drawn, .budgetExhausted, m⟩
  | fuel + 1, p, _, m =>
    if boxC p then ⟨p, some p, .verified, m + 1⟩
    else if tangentLen p1 p2 = 0 then ⟨p, some p, .zeroTangent, m + 1⟩
    else if ptC (cand1 p1 p2 p) then
      refineLoop boxC ptC p1 p2 fuel (cand1 p1 p2 p) (some p) (m + 1)
    else if ptC (cand2 p1 p2 p) then
      refineLoop boxC ptC p1 p2 fuel (cand2 p1 p2 p) (some p) (m + 1)
    else ⟨p, some p, .noViableMove, m + 1⟩

/-- Entry of the refinement loop: `for _ in range(MAX_OFFSET_STEPS)`
starting from the selected anchor with no artist drawn yet. -/
noncomputable def refinePlacement (boxC ptC : Pt → Bool) (p1 p2 p0 : Pt) :
    RefineResult :=
  refineLoop boxC ptC p1 p2 MAX_OFFSET_STEPS p0 none 0

/-- The value `place_river_label` returns (line 121): a figure holding
the plotted exterior rings (lines 62–64), the one text artist left on
the axes (position, string, rotation — lines 75–86), and the title
(line 120). Nothing else that varies is stored on the figure; in
particular no record of how the refinement loop exited. -/
structure Figure where
  outlines : List (List Pt)
  textArtist : Option (Pt × String × ℝ)
  title : String

/-- The full pipeline of `place_river_label` after parsing: body
selection (line 31), anchor selection (lines 34–35), orientation
(lines 44–58, with the boundary samples `p1 p2` supplied by the
external boundary ops of lines 38–42), the refinement loop
(lines 71–118), and assembly of the returned figure (lines 61–121). -/
noncomputable def place (polys : List Polygon) (boxC : Pt → Bool)
    (p1 p2 : Pt) : Except GeomErr Figure :=
  match selectBody polys with
  | .error e => .error e
  | .ok mainPoly =>
    let label_point := anchorPoint mainPoly
    let raw := normalizeAngle (rawAngle p1 p2)
    let L := layoutFor raw
    let r := refinePlacement boxC mainPoly.containsPt p1 p2 label_point
    .ok { outlines := polys.map Polygon.exterior
          textArtist := r.drawnAt.map fun q => (q, L.text, L.rotation)
          title := "Cartographic River Label Placement" }

/-! ## Helper lemmas -/

/-- The running maximum of `maxByArea` is the seed or one of the list
elements. -/
theorem maxByArea_mem (p : Polygon) (ps : List Polygon) :
    maxByArea p ps = p ∨ maxByArea p ps ∈ ps := by
  induction ps generalizing p with
  | nil => exact Or.inl rfl
  | cons q qs ih =>
    have step : maxByArea p (q :: qs) =
        maxByArea (if p.area < q.area then q else p) qs := rfl
    rcases ih (if p.area < q.area then q else p) with h | h
    · rw [step, h]
      by_cases hlt : p.area < q.area
      · simp [hlt]
      · simp [hlt]
    · right
      rw [step]
      exact List.mem_cons_of_mem _ h

/-- The seed's area is dominated by the running maximum's area. -/
theorem le_maxByArea_self (p : Polygon) (ps : List Polygon) :
    p.area ≤ (maxByArea p ps).area := by
  induction ps generalizing p with
  | nil => exact le_refl _
  | cons q qs ih =>
    have step : maxByArea p (q :: qs) =
        maxByArea (if p.area < q.area then q else p) qs := rfl
    rw [step]
    by_cases hlt : p.area < q.area
    · calc p.area ≤ q.area := le_of_lt hlt
        _ ≤ _ := by simpa [hlt] using ih (if p.area < q.area then q else p)
    · simpa [hlt] using ih (if p.area < q.area then q else p)

/-- Every list element's area is dominated by the running maximum's
area. -/
theorem le_maxByArea_of_mem (p : Polygon) (ps : List Polygon) :
    ∀ q ∈ ps, q.area ≤ (maxByArea p ps).area := by
  induction ps generalizing p with
  | nil => intro q h; cases h
  | cons r qs ih =>
    intro q hq
    have step : maxByArea p (r :: qs) =
        maxByArea (if p.area < r.area then r else p) qs := rfl
    rcases List.mem_cons.mp hq with rfl | hq
    · rw [step]
      by_cases hlt : p.area < q.area
      · simpa [hlt] using le_maxByArea_self (if p.area < q.area then q else p) qs
      · calc q.area ≤ p.area := not_lt.mp hlt
          _ ≤ _ := by
            simpa [hlt] using le_maxByArea_self (if p.area < q.area then q else p) qs
    · rw [step]
      exact ih _ q hq

/-! ## Claims -/

/-- Claim C7: for every nonempty list of member polygons the Body
Selector returns a member polygon of maximum area (Python `max` with
the area key, source line 31), and on the empty set it fails with the
`EmptyGeometry` error (Python `max` raising on an empty sequence). The
model is a pure function, so the selection has no side effects. -/
theorem selectBody_spec :
    selectBody [] = .error .EmptyGeometry ∧
    ∀ polys : List Polygon, polys ≠ [] →
      ∃ P, selectBody polys = .ok P ∧ P ∈ polys ∧
        ∀ Q ∈ polys, Q.area ≤ P.area := by
  refine ⟨rfl, ?_⟩
  intro polys hne
  match polys with
  | [] => exact absurd rfl hne
  | p :: ps =>
    refine ⟨maxByArea p ps, rfl, ?_, ?_⟩
    · rcases maxByArea_mem p ps with h | h
      · rw [h]; exact List.mem_cons_self _ _
      · exact List.mem_cons_of_mem _ h
    · intro Q hQ
      rcases List.mem_cons.mp hQ with rfl | hQ
      · exact le_maxByArea_self Q ps
      · exact le_maxByArea_of_mem p ps Q hQ

/-- A concrete polygon used to instantiate theorems with hypotheses:
the unit square's data, with a containment test that accepts
everything (the parts of it the witnesses evaluate are its centroid
and representative point, which do lie inside the square). -/
noncomputable def unitSquare : Polygon where
  exterior := [⟨0, 0⟩, ⟨1, 0⟩, ⟨1, 1⟩, ⟨0, 1⟩, ⟨0, 0⟩]
  area := 1
  centroid := ⟨1 / 2, 1 / 2⟩
  representative_point := ⟨1 / 2, 1 / 2⟩
  containsPt := fun _ => true

/-- Witness for C7 at the one-element list `[unitSquare]`. -/
theorem selectBody_spec_witness :
    ([unitSquare] : List Polygon) ≠ [] ∧
    ∃ P, selectBody [unitSquare] = .ok P ∧ P ∈ [unitSquare] ∧
      ∀ Q ∈ [unitSquare], Q.area ≤ P.area :=
  ⟨by simp, selectBody_spec.2 [unitSquare] (by simp)⟩

/-- Claim C6: the Anchor Selector (source lines 34–35) returns the
centroid whenever the centroid passes the polygon's containment test
and the representative point otherwise, and in both cases the returned
anchor passes the containment test. Interiority of the representative
point is the geometry library's documented contract, taken here as the
hypothesis `hrep`; for a convex polygon the centroid is interior (the
external geometric fact the spec cites), so its containment test
succeeds and the first conjunct yields the claim's convex case: the
anchor is the centroid. -/
theorem anchorPoint_spec (P : Polygon)
    (hrep : P.containsPt P.representative_point = true) :
    (P.containsPt P.centroid = true → anchorPoint P = P.centroid) ∧
    (P.containsPt P.centroid = false →
      anchorPoint P = P.representative_point) ∧
    P.containsPt (anchorPoint P) = true := by
  unfold anchorPoint
  rcases h : P.containsPt P.centroid with _ | _
  · simp [h, hrep]
  · simp [h]

/-- A concrete polygon whose centroid fails the containment test (a
crescent-like body): only the representative point is accepted. -/
noncomputable def crescent : Polygon where
  exterior := [⟨0, 0⟩, ⟨2, 0⟩, ⟨2, 1⟩, ⟨0, 1⟩, ⟨0, 0⟩]
  area := 1
  centroid := ⟨0, 0⟩
  representative_point := ⟨1, 0⟩
  containsPt := fun p => decide (p.x = 1)

/-- Witness for C6 on both branches: `unitSquare` (centroid contained,
anchor = centroid) and `crescent` (centroid rejected, anchor =
representative point, which is contained). -/
theorem anchorPoint_spec_witness :
    (unitSquare.containsPt unitSquare.representative_point = true ∧
      unitSquare.containsPt unitSquare.centroid = true ∧
      anchorPoint unitSquare = unitSquare.centroid ∧
      unitSquare.containsPt (anchorPoint unitSquare) = true) ∧
    (crescent.containsPt crescent.representative_point = true ∧
      crescent.containsPt crescent.centroid = false ∧
      anchorPoint crescent = crescent.representative_point ∧
      crescent.containsPt (anchorPoint crescent) = true) := by
  have hrep1 : unitSquare.containsPt unitSquare.representative_point = true := rfl
  have hc1 : unitSquare.containsPt unitSquare.centroid = true := rfl
  have hrep2 : crescent.containsPt crescent.representative_point = true := by
    simp [crescent]
  have hc2 : crescent.containsPt crescent.centroid = false := by
    simp [crescent]
  have h1 := anchorPoint_spec unitSquare hrep1
  have h2 := anchorPoint_spec crescent hrep2
  exact ⟨⟨hrep1, hc1, h1.1 hc1, h1.2.2⟩, ⟨hrep2, hc2, h2.2.1 hc2, h2.2.2⟩⟩

/-- Number of measurement round-trips the loop performs starting at
counter `m` with `fuel` iterations available: at most one per
iteration. -/
theorem refineLoop_measurements_le (boxC ptC : Pt → Bool) (p1 p2 : Pt) :
    ∀ fuel p drawn m,
      (refineLoop boxC ptC p1 p2 fuel p drawn m).measurements ≤ m + fuel := by
  intro fuel
  induction fuel with
  | zero => intro p drawn m; simp [refineLoop]
  | succ n ih =>
    intro p drawn m
    rw [refineLoop]
    rcases hb : boxC p with _ | _
    · simp only [hb, Bool.false_eq_true, if_false]
      by_cases hlen : tangentLen p1 p2 = 0
      · simp only [hlen, if_true]
        omega
      · simp only [hlen, if_false]
        rcases h1 : ptC (cand1 p1 p2 p) with _ | _
        · simp only [h1, Bool.false_eq_true, if_false]
          rcases h2 : ptC (cand2 p1 p2 p) with _ | _
          · simp only [h2, Bool.false_eq_true, if_false]
            omega
          · simp only [h2, if_true]
            have := ih (cand2 p1 p2 p) (some p) (m + 1)
            omega
        · simp only [h1, if_true]
          have := ih (cand1 p1 p2 p) (some p) (m + 1)
          omega
    · simp only [hb, if_true]
      omega

/-- Claim C5: for every input the Placement Refiner performs at most
`MAX_OFFSET_STEPS = 6` draw-and-measure round-trips before
terminating, whatever the containment oracles answer (source lines
19 and 71–98: `for _ in range(MAX_OFFSET_STEPS)` with one
`fig.canvas.draw()` / `get_window_extent` measurement per iteration). -/
theorem refinePlacement_measurements_le (boxC ptC : Pt → Bool)
    (p1 p2 p0 : Pt) :
    (refinePlacement boxC ptC p1 p2 p0).measurements ≤ MAX_OFFSET_STEPS := by
  have h := refineLoop_measurements_le boxC ptC p1 p2 MAX_OFFSET_STEPS p0 none 0
  simpa [refinePlacement] using h

/-- Stacking `"ELBE"` puts one character per line, top to bottom. -/
theorem stackText_ELBE : stackText LABEL_TEXT = "E\nL\nB\nE" := rfl

/-- Claim C3: layout is a pure function of the normalised angle `raw`
(source lines 48–58): `|raw| ≤ 25` gives the horizontal layout with
rotation `0` and unmodified text, `|raw| ≥ 40` gives the stacked
layout with rotation `0` and one character per line, and the diagonal
band `25 < |raw| < 40` gives the rotated layout with rotation `raw`
and unmodified text. The boundary values behave per the inclusive
edges: `|raw| = 25` is horizontal and `|raw| = 40` is stacked. -/
theorem layoutFor_spec (raw : ℝ) :
    (|raw| ≤ 25 → layoutFor raw = ⟨.horizontal, 0, "ELBE"⟩) ∧
    (40 ≤ |raw| → layoutFor raw = ⟨.stacked, 0, "E\nL\nB\nE"⟩) ∧
    (25 < |raw| → |raw| < 40 → layoutFor raw = ⟨.rotated, raw, "ELBE"⟩) := by
  unfold layoutFor HORIZONTAL_THRESHOLD VERTICAL_THRESHOLD
  refine ⟨?_, ?_, ?_⟩
  · intro h
    rw [if_pos h]
    rfl
  · intro h
    rw [if_neg (by intro hc; linarith), if_pos h]
    rw [stackText_ELBE]
  · intro h1 h2
    rw [if_neg (by intro hc; linarith), if_neg (by intro hc; linarith)]
    rfl

/-- Witness for C3 at the boundary angles `25` and `40`. -/
theorem layoutFor_spec_witness :
    layoutFor 25 = ⟨.horizontal, 0, "ELBE"⟩ ∧
    layoutFor 40 = ⟨.stacked, 0, "E\nL\nB\nE"⟩ :=
  ⟨(layoutFor_spec 25).1 (by rw [abs_of_nonneg (by norm_num : (0:ℝ) ≤ 25)]),
   (layoutFor_spec 40).2.1 (by rw [abs_of_nonneg (by norm_num : (0:ℝ) ≤ 40)])⟩

/-- Claim C10: if the two boundary sample points coincide, every run
of the Placement Refiner terminates on its first iteration without
moving the anchor and with exactly one measurement — either the
bounding box is already contained (`verified`), or the tangent length
`math.hypot(0, 0)` is `0` and the guard at source lines 102–104 breaks
out of the loop before the tangent is normalised, so the division by
the tangent length is never reached. -/
theorem refinePlacement_zero_tangent (boxC ptC : Pt → Bool) (q p0 : Pt) :
    (refinePlacement boxC ptC q q p0).anchor = p0 ∧
    (refinePlacement boxC ptC q q p0).measurements = 1 ∧
    ((refinePlacement boxC ptC q q p0).outcome = .verified ∨
     (refinePlacement boxC ptC q q p0).outcome = .zeroTangent) := by
  have hlen : tangentLen q q = 0 := by
    simp [tangentLen]
  rw [refinePlacement, show MAX_OFFSET_STEPS = 5 + 1 from rfl, refineLoop]
  rcases hb : boxC p0 with _ | _
  · simp [hb, hlen]
  · simp [hb]

/-- The anchor produced by the loop satisfies the point-containment
test whenever the starting anchor does: the anchor is only ever
replaced by a candidate that passed `ptC`. -/
theorem refineLoop_anchor_contained (boxC ptC : Pt → Bool) (p1 p2 : Pt) :
    ∀ fuel p drawn m, ptC p = true →
      ptC (refineLoop boxC ptC p1 p2 fuel p drawn m).anchor = true := by
  intro fuel
  induction fuel with
  | zero => intro p drawn m hp; simpa [refineLoop] using hp
  | succ n ih =>
    intro p drawn m hp
    rw [refineLoop]
    rcases hb : boxC p with _ | _
    · simp only [hb, Bool.false_eq_true, if_false]
      by_cases hlen : tangentLen p1 p2 = 0
      · simpa [hlen] using hp
      · simp only [hlen, if_false]
        rcases h1 : ptC (cand1 p1 p2 p) with _ | _
        · simp only [h1, Bool.false_eq_true, if_false]
          rcases h2 : ptC (cand2 p1 p2 p) with _ | _
          · simpa [h2] using hp
          · simp only [h2, if_true]
            exact ih (cand2 p1 p2 p) (some p) (m + 1) h2
        · simp only [h1, if_true]
          exact ih (cand1 p1 p2 p) (some p) (m + 1) h1
    · simpa [hb] using hp

/-- Claim C9: containment of the anchor in the dominant polygon is an
invariant of the refinement loop — the anchor is only replaced by a
translated candidate that passed the polygon's containment test
(source lines 110–116), so if the initial anchor is contained then
the anchor after every iteration, for any remaining fuel and in
particular the final returned anchor, is contained. -/
theorem refinePlacement_anchor_contained (boxC ptC : Pt → Bool)
    (p1 p2 p0 : Pt) (h0 : ptC p0 = true) :
    (∀ fuel drawn m, ptC
        (refineLoop boxC ptC p1 p2 fuel p0 drawn m).anchor = true) ∧
    ptC (refinePlacement boxC ptC p1 p2 p0).anchor = true := by
  refine ⟨fun fuel drawn m => refineLoop_anchor_contained boxC ptC p1 p2 fuel p0 drawn m h0, ?_⟩
  exact refineLoop_anchor_contained boxC ptC p1 p2 MAX_OFFSET_STEPS p0 none 0 h0

/-- Witness for C9: a run whose initial anchor passes the containment
test ends with an anchor passing the containment test. -/
theorem refinePlacement_anchor_contained_witness :
    ((fun _ : Pt => true) (⟨0, 0⟩ : Pt) = true) ∧
    (fun _ : Pt => true)
      (refinePlacement (fun _ => false) (fun _ => true) ⟨0, 0⟩ ⟨1, 0⟩
        ⟨0, 0⟩).anchor = true :=
  ⟨rfl, (refinePlacement_anchor_contained (fun _ => false) (fun _ => true)
    ⟨0, 0⟩ ⟨1, 0⟩ ⟨0, 0⟩ rfl).2⟩

/-- Claim C4: one iteration of the Placement Refiner in which the
measured bounding box is not contained (`hbox`) and the tangent is
non-degenerate (`hlen`) behaves exactly as specified by source lines
97–118: the anchor translated by the fixed offset
`STACKED_TEXT_OFFSET` along the first unit normal (`cand1`) is
accepted and the loop continues from it if it passes the containment
test; otherwise the opposite normal's candidate (`cand2`) is tried
under the same test; and if neither candidate is contained the loop
terminates early with the anchor unchanged, marked `noViableMove`. -/
theorem refineStep_spec (boxC ptC : Pt → Bool) (p1 p2 p : Pt)
    (fuel m : ℕ) (drawn : Option Pt)
    (hbox : boxC p = false) (hlen : tangentLen p1 p2 ≠ 0) :
    cand1 p1 p2 p =
      ⟨p.x + -((p2.y - p1.y) / tangentLen p1 p2) * STACKED_TEXT_OFFSET,
       p.y + (p2.x - p1.x) / tangentLen p1 p2 * STACKED_TEXT_OFFSET⟩ ∧
    cand2 p1 p2 p =
      ⟨p.x + (p2.y - p1.y) / tangentLen p1 p2 * STACKED_TEXT_OFFSET,
       p.y + -((p2.x - p1.x) / tangentLen p1 p2) * STACKED_TEXT_OFFSET⟩ ∧
    (ptC (cand1 p1 p2 p) = true →
      refineLoop boxC ptC p1 p2 (fuel + 1) p drawn m =
        refineLoop boxC ptC p1 p2 fuel (cand1 p1 p2 p) (some p) (m + 1)) ∧
    (ptC (cand1 p1 p2 p) = false → ptC (cand2 p1 p2 p) = true →
      refineLoop boxC ptC p1 p2 (fuel + 1) p drawn m =
        refineLoop boxC ptC p1 p2 fuel (cand2 p1 p2 p) (some p) (m + 1)) ∧
    (ptC (cand1 p1 p2 p) = false → ptC (cand2 p1 p2 p) = false →
      refineLoop boxC ptC p1 p2 (fuel + 1) p drawn m =
        ⟨p, some p, .noViableMove, m + 1⟩) := by
  refine ⟨rfl, rfl, ?_, ?_, ?_⟩
  · intro h1
    rw [refineLoop]
    simp [hbox, hlen, h1]
  · intro h1 h2
    rw [refineLoop]
    simp [hbox, hlen, h1, h2]
  · intro h1 h2
    rw [refineLoop]
    simp [hbox, hlen, h1, h2]

/-- The tangent of the concrete samples `(0,0)`, `(1,0)` has length 1. -/
theorem tangentLen_unit : tangentLen ⟨0, 0⟩ ⟨1, 0⟩ = 1 := by
  have h : ((⟨1, 0⟩ : Pt).x - (⟨0, 0⟩ : Pt).x) ^ 2 +
      ((⟨1, 0⟩ : Pt).y - (⟨0, 0⟩ : Pt).y) ^ 2 = 1 := by norm_num
  rw [tangentLen, h, Real.sqrt_one]

/-- Witness for C4: with both containment oracles answering `false`,
one step from `(0,0)` with tangent samples `(0,0)`, `(1,0)` terminates
with the anchor unchanged and outcome `noViableMove`. -/
theorem refineStep_spec_witness :
    refineLoop (fun _ => false) (fun _ => false) ⟨0, 0⟩ ⟨1, 0⟩ (5 + 1)
      ⟨0, 0⟩ none 0 = ⟨⟨0, 0⟩, some ⟨0, 0⟩, .noViableMove, 0 + 1⟩ :=
  (refineStep_spec (fun _ => false) (fun _ => false) ⟨0, 0⟩ ⟨1, 0⟩ ⟨0, 0⟩
    5 0 none rfl (by rw [tangentLen_unit]; norm_num)).2.2.2.2 rfl rfl

/-- Claim C2 fails on the code: for the non-degenerate tangent from
`p1 = (0,0)` to `p2 = (-1,1)` the raw two-argument-arctangent angle is
`135°`, which is outside `(-90, 90]`, so source line 46 adds `180°` —
producing a normalised angle of `315°`, outside the claimed interval
`[-90, 90]` (the correction for angles above `90°` would have to
subtract `180°`, not add it). Downstream, `abs(315) ≥ 40` forces the
stacked layout even though the tangent direction is equivalent to
`-45°`. -/
theorem rawAngle_normalization_escapes_range :
    (⟨0, 0⟩ : Pt) ≠ (⟨-1, 1⟩ : Pt) ∧
    rawAngle ⟨0, 0⟩ ⟨-1, 1⟩ = 135 ∧
    normalizeAngle (rawAngle ⟨0, 0⟩ ⟨-1, 1⟩) = 315 ∧
    ¬ normalizeAngle (rawAngle ⟨0, 0⟩ ⟨-1, 1⟩) ≤ 90 := by
  have hraw : rawAngle ⟨0, 0⟩ ⟨-1, 1⟩ = 135 := by
    have hy : (⟨-1, 1⟩ : Pt).y - (⟨0, 0⟩ : Pt).y = 1 := by norm_num
    have hx : (⟨-1, 1⟩ : Pt).x - (⟨0, 0⟩ : Pt).x = -1 := by norm_num
    rw [rawAngle, hy, hx, atan2,
      if_neg (by norm_num : ¬ (0:ℝ) < -1),
      if_pos (by norm_num : (-1:ℝ) < 0),
      if_pos (by norm_num : (0:ℝ) ≤ 1),
      show (1:ℝ) / (-1) = -1 by norm_num,
      Real.arctan_neg, Real.arctan_one, degrees]
    have hpi := Real.pi_ne_zero
    field_simp
    ring
  refine ⟨?_, hraw, ?_, ?_⟩
  · intro h
    have hx := congrArg Pt.x h
    norm_num at hx
  · rw [hraw, normalizeAngle,
      if_pos (Or.inr (by norm_num : (90:ℝ) < 135))]
    norm_num
  · rw [hraw, normalizeAngle,
      if_pos (Or.inr (by norm_num : (90:ℝ) < 135))]
    norm_num

/-- A polygon too narrow for the label: its containment test rejects
every point, so no refinement move is ever viable and the bounding box
is never verified contained. -/
noncomputable def narrowPoly : Polygon where
  exterior := [⟨0, 0⟩, ⟨4, 0⟩, ⟨4, 1⟩, ⟨0, 1⟩, ⟨0, 0⟩]
  area := 4
  centroid := ⟨2, 1 / 2⟩
  representative_point := ⟨2, 1 / 2⟩
  containsPt := fun _ => false

/-- On `narrowPoly` with a measurement oracle that immediately reports
the bounding box contained, refinement exits `verified` on its first
iteration, leaving the artist at the initial anchor. -/
theorem refine_narrow_verified :
    refinePlacement (fun _ => true) narrowPoly.containsPt ⟨0, 0⟩ ⟨1, 0⟩
      (anchorPoint narrowPoly) =
    ⟨anchorPoint narrowPoly, some (anchorPoint narrowPoly), .verified, 1⟩ := by
  rw [refinePlacement, show MAX_OFFSET_STEPS = 5 + 1 from rfl, refineLoop]
  simp

/-- On `narrowPoly` with a measurement oracle that reports the bounding
box never contained, neither normal candidate passes the containment
test, so refinement exits `noViableMove` on its first iteration,
leaving the artist at the same initial anchor. -/
theorem refine_narrow_stuck :
    refinePlacement (fun _ => false) narrowPoly.containsPt ⟨0, 0⟩ ⟨1, 0⟩
      (anchorPoint narrowPoly) =
    ⟨anchorPoint narrowPoly, some (anchorPoint narrowPoly), .noViableMove, 1⟩ := by
  have hlen : tangentLen ⟨0, 0⟩ ⟨1, 0⟩ ≠ 0 := by
    rw [tangentLen_unit]; norm_num
  rw [refinePlacement, show MAX_OFFSET_STEPS = 5 + 1 from rfl, refineLoop]
  simp [hlen, narrowPoly]

/-- Claim C1 fails on the code: the function returns only the bare
figure (source line 121), which records the plotted outlines, the text
artist and the title but nothing about how refinement ended. A run
that verifies containment on its first measurement and a run that
finds neither normal candidate contained (best-effort) return equal
figures, so the returned result carries no flag distinguishing an
unverified best-effort placement from a verified success. -/
theorem place_no_flag :
    place [narrowPoly] (fun _ => true) ⟨0, 0⟩ ⟨1, 0⟩ =
      place [narrowPoly] (fun _ => false) ⟨0, 0⟩ ⟨1, 0⟩ ∧
    (refinePlacement (fun _ => true) narrowPoly.containsPt ⟨0, 0⟩ ⟨1, 0⟩
      (anchorPoint narrowPoly)).outcome = .verified ∧
    (refinePlacement (fun _ => false) narrowPoly.containsPt ⟨0, 0⟩ ⟨1, 0⟩
      (anchorPoint narrowPoly)).outcome = .noViableMove := by
  refine ⟨?_, by rw [refine_narrow_verified], by rw [refine_narrow_stuck]⟩
  show Except.ok _ = Except.ok _
  simp only [show maxByArea narrowPoly [] = narrowPoly from rfl]
  rw [refine_narrow_verified, refine_narrow_stuck]

/-- A degenerate dominant polygon: three collinear vertices, zero
area. -/
noncomputable def zeroAreaPoly : Polygon where
  exterior := [⟨0, 0⟩, ⟨1, 0⟩, ⟨2, 0⟩, ⟨0, 0⟩]
  area := 0
  centroid := ⟨1, 0⟩
  representative_point := ⟨1, 0⟩
  containsPt := fun _ => false

/-- Claim C8 fails on the code: there is no degeneracy check anywhere
in `place_river_label` (and its error model has no `DegenerateBody`
case, because the source raises nothing of the kind). A zero-area
dominant polygon — e.g. the collinear ring `(0,0),(1,0),(2,0)` — is
selected by the Body Selector, reaches the Anchor Selector, and the
pipeline completes with an ordinary figure instead of failing
fatally. -/
theorem place_no_degenerate_check :
    zeroAreaPoly.area = 0 ∧
    selectBody [zeroAreaPoly] = .ok zeroAreaPoly ∧
    anchorPoint zeroAreaPoly = zeroAreaPoly.representative_point ∧
    ∃ fig, place [zeroAreaPoly] (fun _ => false) ⟨0, 0⟩ ⟨1, 0⟩ = .ok fig := by
  refine ⟨rfl, rfl, ?_, ⟨_, rfl⟩⟩
  simp [anchorPoint, zeroAreaPoly]

end RiverLabel
